import Mathlib

/-!
Shallow embedding of the WhatsApp message-dispatch app (three Streamlit pages:
`invoice_message.py`, `welcome_new_user.py`, `msg_existing_user.py`).

Strings stay `String`; Python `str.strip` and `str.split("_")[0]` are modelled
character-wise so that everything kernel-evaluates.  HTTP traffic is modelled
by an oracle (`Network`) mapping each request to either a response or a raised
exception (`Except String HttpResponse`), and the dispatch loop additionally
returns the ordered trace of HTTP calls it performed.
-/

set_option autoImplicit false

namespace WhatsappApp

/-- Python `str.strip()`: drop leading and trailing whitespace. -/
def pyStrip (s : String) : String :=
  String.mk (((s.toList.dropWhile Char.isWhitespace).reverse.dropWhile
      Char.isWhitespace).reverse)

/-- Python `filename.split("_")[0]`: the part of the string before the first
underscore (the whole string when no underscore occurs). -/
def firstToken (s : String) : String :=
  String.mk (s.toList.takeWhile (fun c => c ≠ '_'))

/-- Python truthiness of an optional string (`None` and `""` are falsy). -/
def pyTruthy : Option String → Bool
  | none => false
  | some s => s ≠ ""

namespace InvoiceMsg

/-- Model of `invoice_message.extract_invoice_number`:
`if not filename: return None; token = filename.split("_")[0];
return token.strip() or None`. -/
def extract_invoice_number (filename : String) : Option String :=
  if filename = "" then none
  else
    let token := firstToken filename
    if pyStrip token = "" then none else some (pyStrip token)

end InvoiceMsg

/-! ## Python `dict` model

`validate_data` builds `{row["invoice number"]: {...} for _, row in df.iterrows()}`.
A Python dict keeps insertion order of keys; assigning an existing key replaces
its value in place.  We model a dict as an association list with those exact
insertion semantics. -/

/-- One `dict.__setitem__`: replace the value in place when the key exists,
otherwise append the new binding. -/
def dictInsert {β : Type} (d : List (String × β)) (k : String) (v : β) :
    List (String × β) :=
  if d.any (fun p => p.1 == k) then
    d.map (fun p => if p.1 == k then (k, v) else p)
  else
    d ++ [(k, v)]

/-- Dict lookup `d[k]` (`None` when absent): first binding with key `k`; keys are
kept unique by `dictInsert`, so "first" is "the" binding. -/
def dictGet {β : Type} (d : List (String × β)) (k : String) : Option β :=
  (d.find? (fun p => p.1 == k)).map (fun p => p.2)

/-- Python membership test `k in d`. -/
def dictHasKey {β : Type} (d : List (String × β)) (k : String) : Bool :=
  d.any (fun p => p.1 == k)

/-- The keys of the dict, in insertion order. -/
def dictKeys {β : Type} (d : List (String × β)) : List String :=
  d.map (fun p => p.1)

/-- Row indices flagged by `list(df.index[empty_mask])` for a per-row Boolean
mask: the 0-based positions at which the mask holds. -/
def maskIndices {α : Type} (p : α → Bool) (rows : List α) : List Nat :=
  rows.enum.filterMap (fun x => if p x.2 then some x.1 else none)

/-- What the code reads off an HTTP response: `resp.status_code` and (for the
media upload) `resp.json().get("id")`. -/
structure HttpResponse where
  status : Nat
  mediaId : Option String
deriving Repr, DecidableEq

namespace InvoiceMsg

/-- One spreadsheet row of the invoice sheet, restricted to the four required
columns (the only columns the code ever reads); every cell is a string, as
after `df[col].astype(str)`. -/
structure Row where
  invoice : String
  phone : String
  dealer : String
  amount : String
deriving Repr, DecidableEq

/-- The normalized DataFrame: lower-cased/trimmed column names plus the rows.
Extra columns beyond the required four may be present in `columns`. -/
structure Table where
  columns : List String
  rows : List Row
deriving Repr

/-- Source constant `REQUIRED_COLUMNS = {"invoice number", "phone number", "dealer name", "amount"}`. -/
def REQUIRED_COLUMNS : List String :=
  ["invoice number", "phone number", "dealer name", "amount"]

/-- Trimming `df[col] = df[col].astype(str).str.strip()` applied to the required columns. -/
def trimRow (r : Row) : Row :=
  ⟨pyStrip r.invoice, pyStrip r.phone, pyStrip r.dealer, pyStrip r.amount⟩

/-- Emptiness mask `df[list(REQUIRED_COLUMNS)].eq("").any(axis=1)` for one row: some required
cell is empty. -/
def rowHasEmpty (r : Row) : Bool :=
  r.invoice == "" || r.phone == "" || r.dealer == "" || r.amount == ""

/-- The per-key payload `{"phone": ..., "dealer": ..., "amount": ...}`. -/
structure Info where
  phone : String
  dealer : String
  amount : String
deriving Repr, DecidableEq

/-- The value stored for a row in the mapping. -/
def rowInfo (r : Row) : Info :=
  ⟨r.phone, r.dealer, r.amount⟩

/-- Source set `excel_invoices = set(df["invoice number"])`. -/
def excelInvoices (rows : List Row) : Finset String :=
  (rows.map (fun r => r.invoice)).toFinset

/-- Source set `file_invoices = {extract_invoice_number(f) for f in filenames} - {None}`. -/
def fileInvoices (filenames : List String) : Finset String :=
  (filenames.filterMap extract_invoice_number).toFinset

/-- Source dict `mapping = {row["invoice number"]: {...} for _, row in df.iterrows()}`. -/
def buildMapping (rows : List Row) : List (String × Info) :=
  rows.foldl (fun d r => dictInsert d r.invoice (rowInfo r)) []

/-- Outcome of `invoice_message.validate_data`: either one of the three
user-visible rejections, or the invoice→info mapping. -/
inductive Validation where
  | missingColumns
  | incompleteRows (indices : List Nat)
  | unmatchedInvoices (missing : Finset String)
  | ok (mapping : List (String × Info))

/-- Model of `invoice_message.validate_data(df, filenames)`. -/
def validate_data (t : Table) (filenames : List String) : Validation :=
  if !REQUIRED_COLUMNS.all (fun c => t.columns.contains c) then
    .missingColumns
  else
    let rows := t.rows.map trimRow
    if rows.any rowHasEmpty then
      .incompleteRows (maskIndices rowHasEmpty rows)
    else
      let missing := excelInvoices rows \ fileInvoices filenames
      if missing ≠ ∅ then
        .unmatchedInvoices missing
      else
        .ok (buildMapping rows)

/-! ## Invoice dispatcher -/

/-- One HTTP POST performed by `send_whatsapp_msg`, with the request fields the
code fills in: the media upload carries `(f"{invoice_no}.pdf", pdf_bytes)`, the
message send carries the recipient `"91" + phone`, the media id, and the three
templated body parameters. -/
inductive Call where
  | upload (filename : String) (bytes : String)
  | send (recipient mediaId customer_name invoice_no amount : String)
deriving Repr, DecidableEq

/-- Oracle for the two provider endpoints.  `.error e` models a raised
exception (network failure etc.), `.ok r` a returned response. -/
structure Network where
  upload : String → String → Except String HttpResponse
  send : String → String → String → String → String → Except String HttpResponse

/-- Model of `invoice_message.send_whatsapp_msg(phone, customer_name, invoice_no,
amount, pdf_bytes)`: upload the PDF, then send the templated message; returns
the Boolean result (or the exception it would raise) together with the ordered
trace of HTTP calls it made. -/
def send_whatsapp_msg (net : Network) (phone customer_name invoice_no amount
    pdf_bytes : String) : Except String Bool × List Call :=
  let uploadCall := Call.upload (invoice_no ++ ".pdf") pdf_bytes
  match net.upload (invoice_no ++ ".pdf") pdf_bytes with
  | .error e => (.error e, [uploadCall])
  | .ok upload_resp =>
    if upload_resp.status ≠ 200 then (.ok false, [uploadCall])
    else if pyTruthy upload_resp.mediaId = false then (.ok false, [uploadCall])
    else
      let media_id := upload_resp.mediaId.getD ""
      let sendCall := Call.send ("91" ++ phone) media_id customer_name
        invoice_no amount
      match net.send ("91" ++ phone) customer_name invoice_no amount media_id with
      | .error e => (.error e, [uploadCall, sendCall])
      | .ok resp => (.ok (resp.status == 200), [uploadCall, sendCall])

/-- One uploaded file as the dispatcher sees it: `file_obj.name` and
`file_obj.read()`, the latter possibly raising. -/
structure FileObj where
  name : String
  read : Except String String

/-- One result dict appended by `process_and_send`; the skip branch writes no
`phone`/`dealer` keys, modelled by `none`. -/
structure DispatchResult where
  file : String
  invoice : Option String
  phone : Option String
  dealer : Option String
  status : String
deriving Repr, DecidableEq

/-- One iteration of the `for file_obj in invoice_files` loop in
`process_and_send`, returning the result record and the HTTP calls made for
this item.  Python's `if not inv or inv not in mapping` skips on a falsy key
(`None` or `""`) or an unmatched key. -/
def dispatch_one (net : Network) (mapping : List (String × Info))
    (f : FileObj) : DispatchResult × List Call :=
  match extract_invoice_number f.name with
  | none => (⟨f.name, none, none, none, "skipped"⟩, [])
  | some inv =>
    if inv = "" then (⟨f.name, some inv, none, none, "skipped"⟩, [])
    else if dictHasKey mapping inv = false then
      (⟨f.name, some inv, none, none, "skipped"⟩, [])
    else
      let info := (dictGet mapping inv).getD ⟨"", "", ""⟩
      match f.read with
      | .error e =>
        (⟨f.name, some inv, some info.phone, some info.dealer, "error: " ++ e⟩, [])
      | .ok pdf_bytes =>
        match send_whatsapp_msg net info.phone info.dealer inv info.amount
            pdf_bytes with
        | (.error e, calls) =>
          (⟨f.name, some inv, some info.phone, some info.dealer,
            "error: " ++ e⟩, calls)
        | (.ok ok, calls) =>
          (⟨f.name, some inv, some info.phone, some info.dealer,
            if ok then "sent" else "failed"⟩, calls)

/-- Model of `invoice_message.process_and_send(mapping, invoice_files)`: the loop body
appends one result per file and performs that item's HTTP calls in order;
iterations are independent, so the loop is the map of `dispatch_one` over the
files, with the call traces concatenated in order. -/
def process_and_send (net : Network) (mapping : List (String × Info))
    (invoice_files : List FileObj) : List DispatchResult × List Call :=
  (invoice_files.map (fun f => (dispatch_one net mapping f).1),
   (invoice_files.map (fun f => (dispatch_one net mapping f).2)).flatten)

end InvoiceMsg

namespace WelcomeNewUser

/-- The normalized DataFrame of `welcome_new_user.py`: column names plus the
`phone number` column's cells (the only column the code reads). -/
structure Table where
  columns : List String
  phones : List String
deriving Repr

/-- Outcome of `welcome_new_user.validate_data`. -/
inductive Validation where
  | missingColumns
  | incompleteRows (indices : List Nat)
  | ok (phones : List String)
deriving Repr, DecidableEq

/-- Model of `pandas.Series.unique()`: distinct values in order of first appearance. -/
def pdUnique (l : List String) : List String :=
  l.foldl (fun acc x => if acc.contains x then acc else acc ++ [x]) []

/-- Model of `welcome_new_user.validate_data(df)`: column check, trim, empty check,
then `df["phone number"].unique().tolist()`. -/
def validate_data (t : Table) : Validation :=
  if !t.columns.contains "phone number" then
    .missingColumns
  else
    let phones := t.phones.map pyStrip
    if phones.any (fun p => p == "") then
      .incompleteRows (maskIndices (fun p => p == "") phones)
    else
      .ok (pdUnique phones)

/-- Oracle for the message-send endpoint; the request's only data from the row
is the recipient `"91" + phone`. -/
structure Network where
  send : String → Except String HttpResponse

/-- Model of `welcome_new_user.send_whatsapp_msg(phone)`. -/
def send_whatsapp_msg (net : Network) (phone : String) : Except String Bool :=
  match net.send ("91" ++ phone) with
  | .error e => .error e
  | .ok resp => .ok (resp.status == 200)

/-- One result dict `{"phone": ..., "status": ...}`. -/
structure SendResult where
  phone : String
  status : String
deriving Repr, DecidableEq

/-- One iteration of the `for phone in phone_numbers` loop. -/
def process_one (net : Network) (phone : String) : SendResult :=
  match send_whatsapp_msg net phone with
  | .error e => ⟨phone, "error: " ++ e⟩
  | .ok ok => ⟨phone, if ok then "sent" else "failed"⟩

/-- Model of `welcome_new_user.process_and_send(phone_numbers)`: one result per phone
number, in order; iterations are independent. -/
def process_and_send (net : Network) (phone_numbers : List String) :
    List SendResult :=
  phone_numbers.map (process_one net)

end WelcomeNewUser

namespace MsgExistingUser

/-- One row of the existing-user sheet, restricted to the three required
columns. -/
structure Row where
  phone : String
  dealerName : String
  dealerCode : String
deriving Repr, DecidableEq

/-- The normalized DataFrame of `msg_existing_user.py`. -/
structure Table where
  columns : List String
  rows : List Row
deriving Repr

/-- Source constant `REQUIRED_COLUMNS = {"phone number", "dealer name", "dealer code"}`. -/
def REQUIRED_COLUMNS : List String :=
  ["phone number", "dealer name", "dealer code"]

/-- Per-column `astype(str).str.strip()`. -/
def trimRow (r : Row) : Row :=
  ⟨pyStrip r.phone, pyStrip r.dealerName, pyStrip r.dealerCode⟩

/-- Emptiness mask `df["phone number"].eq("") | df["dealer name"].eq("") | df["dealer code"].eq("")`
for one row. -/
def rowHasEmpty (r : Row) : Bool :=
  r.phone == "" || r.dealerName == "" || r.dealerCode == ""

/-- Outcome of `msg_existing_user.validate_data`: on success the three
`tolist()` columns, with no deduplication. -/
inductive Validation where
  | missingColumns
  | incompleteRows (indices : List Nat)
  | ok (phones : List String) (dealerNames : List String) (dealerCodes : List String)
deriving Repr, DecidableEq

/-- Model of `msg_existing_user.validate_data(df)`. -/
def validate_data (t : Table) : Validation :=
  if !REQUIRED_COLUMNS.all (fun c => t.columns.contains c) then
    .missingColumns
  else
    let rows := t.rows.map trimRow
    if rows.any rowHasEmpty then
      .incompleteRows (maskIndices rowHasEmpty rows)
    else
      .ok (rows.map (fun r => r.phone)) (rows.map (fun r => r.dealerName))
        (rows.map (fun r => r.dealerCode))

/-- Oracle for the message-send endpoint; the request carries the recipient
`"91" + phone` and the two templated body parameters. -/
structure Network where
  send : String → String → String → Except String HttpResponse

/-- Model of `msg_existing_user.send_whatsapp_msg(phone, dealer_name, dealer_code)`. -/
def send_whatsapp_msg (net : Network) (phone dealer_name dealer_code : String) :
    Except String Bool :=
  match net.send ("91" ++ phone) dealer_name dealer_code with
  | .error e => .error e
  | .ok resp => .ok (resp.status == 200)

/-- One result dict `{"phone": ..., "status": ...}`. -/
structure SendResult where
  phone : String
  status : String
deriving Repr, DecidableEq

/-- One iteration of the `for phone, dealer_name, dealer_code in zip(...)` loop. -/
def process_one (net : Network) (r : String × String × String) : SendResult :=
  match send_whatsapp_msg net r.1 r.2.1 r.2.2 with
  | .error e => ⟨r.1, "error: " ++ e⟩
  | .ok ok => ⟨r.1, if ok then "sent" else "failed"⟩

/-- Model of `msg_existing_user.process_and_send(phone_numbers, dealer_names,
dealer_codes)`: Python `zip` truncates to the shortest list, exactly like
`List.zip`. -/
def process_and_send (net : Network) (phone_numbers dealer_names
    dealer_codes : List String) : List SendResult :=
  (phone_numbers.zip (dealer_names.zip dealer_codes)).map (process_one net)

end MsgExistingUser

/-! ## Helper lemmas -/

theorem extract_eq_none_iff (f : String) :
    InvoiceMsg.extract_invoice_number f = none ↔ pyStrip (firstToken f) = "" := by
  unfold InvoiceMsg.extract_invoice_number
  by_cases hf : f = ""
  · subst hf; decide
  · simp only [hf, if_false]
    by_cases ht : pyStrip (firstToken f) = "" <;> simp [ht]

theorem extract_eq_some (f k : String)
    (h : InvoiceMsg.extract_invoice_number f = some k) :
    k = pyStrip (firstToken f) ∧ k ≠ "" := by
  unfold InvoiceMsg.extract_invoice_number at h
  by_cases hf : f = ""
  · simp [hf] at h
  · simp only [hf, if_false] at h
    by_cases ht : pyStrip (firstToken f) = ""
    · simp [ht] at h
    · simp only [ht, if_false, Option.some_inj] at h
      exact ⟨h.symm, h ▸ ht⟩

theorem mem_maskIndices {α : Type} (p : α → Bool) (rows : List α) (i : Nat) :
    i ∈ maskIndices p rows ↔ ∃ a, rows[i]? = some a ∧ p a = true := by
  unfold maskIndices
  simp only [List.mem_filterMap]
  constructor
  · rintro ⟨⟨j, a⟩, hmem, hif⟩
    by_cases hp : p a
    · simp only [hp, if_true, Option.some_inj] at hif
      subst hif
      exact ⟨a, List.mk_mem_enum_iff_getElem?.mp hmem, hp⟩
    · simp [hp] at hif
  · rintro ⟨a, hget, hp⟩
    exact ⟨(i, a), List.mk_mem_enum_iff_getElem?.mpr hget, by simp [hp]⟩

theorem find?_map_replace {β : Type} (d : List (String × β)) (k : String)
    (v : β) (h : d.any (fun p => p.1 == k) = true) :
    List.find? (fun p => p.1 == k)
      (d.map (fun p => if p.1 == k then (k, v) else p)) = some (k, v) := by
  induction d with
  | nil => simp at h
  | cons p d ih =>
    by_cases hpk : p.1 = k
    · rw [List.map_cons, if_pos (show (p.1 == k) = true by simp [hpk])]
      exact List.find?_cons_of_pos _ (by simp)
    · have h' : d.any (fun p => p.1 == k) = true := by simpa [hpk] using h
      rw [List.map_cons, if_neg (show ¬(p.1 == k) = true by simp [hpk]),
        List.find?_cons_of_neg _ (by simp [hpk])]
      exact ih h'

theorem find?_map_replace_ne {β : Type} (d : List (String × β)) (k k' : String)
    (v : β) (hne : k' ≠ k) :
    List.find? (fun p => p.1 == k')
      (d.map (fun p => if p.1 == k then (k, v) else p)) =
      List.find? (fun p => p.1 == k') d := by
  have hkk' : ¬(k = k') := fun hkk => hne hkk.symm
  induction d with
  | nil => rfl
  | cons p d ih =>
    by_cases hpk : p.1 = k
    · have hp' : ¬(p.1 = k') := by rw [hpk]; exact hkk'
      rw [List.map_cons, if_pos (show (p.1 == k) = true by simp [hpk]),
        List.find?_cons_of_neg _ (by simp [hkk']),
        List.find?_cons_of_neg _ (by simp [hp'])]
      exact ih
    · by_cases hpk' : p.1 = k'
      · rw [List.map_cons, if_neg (show ¬(p.1 == k) = true by simp [hpk]),
          List.find?_cons_of_pos _ (by simp [hpk']),
          List.find?_cons_of_pos _ (by simp [hpk'])]
      · rw [List.map_cons, if_neg (show ¬(p.1 == k) = true by simp [hpk]),
          List.find?_cons_of_neg _ (by simp [hpk']),
          List.find?_cons_of_neg _ (by simp [hpk'])]
        exact ih

theorem dictGet_insert_self {β : Type} (d : List (String × β)) (k : String)
    (v : β) : dictGet (dictInsert d k v) k = some v := by
  unfold dictGet dictInsert
  by_cases h : d.any (fun p => p.1 == k) = true
  · rw [if_pos h, find?_map_replace d k v h]
    rfl
  · rw [if_neg h, List.find?_append]
    have hnone : List.find? (fun p => p.1 == k) d = none := by
      rw [List.find?_eq_none]
      intro x hx hxk
      exact h (List.any_eq_true.mpr ⟨x, hx, hxk⟩)
    simp [hnone]

theorem dictGet_insert_ne {β : Type} (d : List (String × β)) (k k' : String)
    (v : β) (hne : k' ≠ k) : dictGet (dictInsert d k v) k' = dictGet d k' := by
  unfold dictGet dictInsert
  by_cases h : d.any (fun p => p.1 == k) = true
  · rw [if_pos h, find?_map_replace_ne d k k' v hne]
  · rw [if_neg h, List.find?_append]
    have hsingle : List.find? (fun p => p.1 == k') [(k, v)] = none := by
      rw [List.find?_eq_none]
      intro x hx
      simp only [List.mem_singleton] at hx
      subst hx
      simp only [beq_iff_eq]
      exact fun hkk => hne hkk.symm
    rw [hsingle]
    simp

theorem dictKeys_insert {β : Type} (d : List (String × β)) (k : String) (v : β) :
    dictKeys (dictInsert d k v) =
      if dictHasKey d k then dictKeys d else dictKeys d ++ [k] := by
  unfold dictKeys dictInsert dictHasKey
  by_cases h : d.any (fun p => p.1 == k) = true
  · rw [if_pos h, if_pos h, List.map_map]
    refine List.map_congr_left (fun p _ => ?_)
    by_cases hpk : p.1 = k
    · simp [hpk]
    · simp [hpk]
  · rw [if_neg h, if_neg h]
    simp

theorem dictKeys_nodup_insert {β : Type} (d : List (String × β)) (k : String)
    (v : β) (h : (dictKeys d).Nodup) : (dictKeys (dictInsert d k v)).Nodup := by
  rw [dictKeys_insert]
  by_cases hk : dictHasKey d k = true
  · simpa [hk] using h
  · have hkmem : k ∉ dictKeys d := by
      intro hmem
      rcases List.mem_map.mp hmem with ⟨p, hp, hpk⟩
      apply hk
      unfold dictHasKey
      rw [List.any_eq_true]
      exact ⟨p, hp, by simp [hpk]⟩
    simp only [hk, if_false]
    refine List.Nodup.append h (List.nodup_singleton k) ?_
    intro a ha hb
    simp only [List.mem_singleton] at hb
    subst hb
    exact hkmem ha

theorem dictHasKey_iff_get {β : Type} (d : List (String × β)) (k : String) :
    dictHasKey d k = true ↔ (dictGet d k).isSome := by
  unfold dictHasKey dictGet
  rw [List.any_eq_true]
  constructor
  · rintro ⟨x, hx, hxk⟩
    rw [Option.isSome_map']
    exact List.find?_isSome.mpr ⟨x, hx, hxk⟩
  · intro h
    rw [Option.isSome_map'] at h
    exact List.find?_isSome.mp h

theorem buildMapping_loop_get (rows : List InvoiceMsg.Row)
    (d : List (String × InvoiceMsg.Info)) (k : String) :
    dictGet (rows.foldl (fun d r => dictInsert d r.invoice (InvoiceMsg.rowInfo r)) d) k =
      (((rows.filter (fun r => r.invoice == k)).getLast?).map
        InvoiceMsg.rowInfo).or (dictGet d k) := by
  induction rows generalizing d with
  | nil => simp
  | cons r rows ih =>
    rw [List.foldl_cons, ih]
    by_cases hrk : r.invoice = k
    · subst hrk
      rw [List.filter_cons_of_pos (by simp)]
      cases hfl : rows.filter (fun s => s.invoice == r.invoice) with
      | nil =>
        simp [dictGet_insert_self d r.invoice (InvoiceMsg.rowInfo r)]
      | cons b l =>
        rcases List.getLast?_eq_getLast (b :: l) (by simp) with h
        simp [List.getLast?_cons_cons, h]
    · rw [List.filter_cons_of_neg (by simp [hrk]),
        dictGet_insert_ne d r.invoice k (InvoiceMsg.rowInfo r)
          (fun hkk => hrk hkk.symm)]

theorem dictGet_buildMapping (rows : List InvoiceMsg.Row) (k : String) :
    dictGet (InvoiceMsg.buildMapping rows) k =
      ((rows.filter (fun r => r.invoice == k)).getLast?).map InvoiceMsg.rowInfo := by
  unfold InvoiceMsg.buildMapping
  rw [buildMapping_loop_get]
  have hnil : dictGet ([] : List (String × InvoiceMsg.Info)) k = none := rfl
  rw [hnil, Option.or_none]

theorem buildMapping_loop_keys_nodup (rows : List InvoiceMsg.Row)
    (d : List (String × InvoiceMsg.Info)) (h : (dictKeys d).Nodup) :
    (dictKeys (rows.foldl
      (fun d r => dictInsert d r.invoice (InvoiceMsg.rowInfo r)) d)).Nodup := by
  induction rows generalizing d with
  | nil => exact h
  | cons r rows ih =>
    rw [List.foldl_cons]
    exact ih _ (dictKeys_nodup_insert d r.invoice (InvoiceMsg.rowInfo r) h)

theorem buildMapping_keys_nodup (rows : List InvoiceMsg.Row) :
    (dictKeys (InvoiceMsg.buildMapping rows)).Nodup :=
  buildMapping_loop_keys_nodup rows [] List.nodup_nil

theorem dictHasKey_buildMapping (rows : List InvoiceMsg.Row) (k : String) :
    dictHasKey (InvoiceMsg.buildMapping rows) k = true ↔
      k ∈ rows.map (fun r => r.invoice) := by
  rw [dictHasKey_iff_get, dictGet_buildMapping, Option.isSome_map',
    List.getLast?_isSome]
  constructor
  · intro h
    rcases List.exists_mem_of_ne_nil _ h with ⟨r, hr⟩
    have := List.mem_filter.mp hr
    exact List.mem_map.mpr ⟨r, this.1, by simpa using this.2⟩
  · intro h
    rcases List.mem_map.mp h with ⟨r, hr, hrk⟩
    intro hnil
    have : r ∈ rows.filter (fun r => r.invoice == k) :=
      List.mem_filter.mpr ⟨hr, by simp [hrk]⟩
    rw [hnil] at this
    simp at this

theorem pdUnique_loop (l acc : List String) (hacc : acc.Nodup) :
    (l.foldl (fun acc x => if acc.contains x then acc else acc ++ [x]) acc).Nodup ∧
    ∀ x, x ∈ l.foldl (fun acc x => if acc.contains x then acc else acc ++ [x]) acc ↔
      x ∈ acc ∨ x ∈ l := by
  induction l generalizing acc with
  | nil => exact ⟨hacc, fun x => by simp⟩
  | cons a l ih =>
    rw [List.foldl_cons]
    by_cases hc : a ∈ acc
    · have hcb : acc.contains a = true := by simp [List.contains, List.elem_iff, hc]
      rw [if_pos hcb]
      refine ⟨(ih acc hacc).1, fun x => ?_⟩
      rw [(ih acc hacc).2 x]
      constructor
      · rintro (hx | hx)
        · exact Or.inl hx
        · exact Or.inr (List.mem_cons_of_mem a hx)
      · rintro (hx | hx)
        · exact Or.inl hx
        · rcases List.mem_cons.mp hx with rfl | hx
          · exact Or.inl hc
          · exact Or.inr hx
    · have hcb : ¬acc.contains a = true := by simp [List.contains, List.elem_iff, hc]
      rw [if_neg hcb]
      have hacc' : (acc ++ [a]).Nodup := by
        refine List.Nodup.append hacc (List.nodup_singleton a) ?_
        intro x hx hxa
        simp only [List.mem_singleton] at hxa
        subst hxa
        exact hc hx
      refine ⟨(ih _ hacc').1, fun x => ?_⟩
      rw [(ih _ hacc').2 x]
      simp only [List.mem_append, List.mem_singleton, List.mem_cons]
      tauto

theorem pdUnique_nodup (l : List String) : (WelcomeNewUser.pdUnique l).Nodup :=
  (pdUnique_loop l [] List.nodup_nil).1

theorem mem_pdUnique (l : List String) (x : String) :
    x ∈ WelcomeNewUser.pdUnique l ↔ x ∈ l := by
  rw [WelcomeNewUser.pdUnique, (pdUnique_loop l [] List.nodup_nil).2 x]
  simp

theorem welcome_results_phones (net : WelcomeNewUser.Network)
    (phones : List String) :
    (WelcomeNewUser.process_and_send net phones).map (fun r => r.phone) = phones := by
  unfold WelcomeNewUser.process_and_send
  rw [List.map_map]
  have hz : ∀ p ∈ phones,
      ((fun r => WelcomeNewUser.SendResult.phone r) ∘
        WelcomeNewUser.process_one net) p = id p := by
    intro p _
    unfold Function.comp WelcomeNewUser.process_one
    cases WelcomeNewUser.send_whatsapp_msg net p with
    | error e => rfl
    | ok ok => rfl
  rw [List.map_congr_left hz, List.map_id]

theorem existing_results_phones (net : MsgExistingUser.Network)
    (phones names codes : List String)
    (h1 : names.length = phones.length) (h2 : codes.length = phones.length) :
    (MsgExistingUser.process_and_send net phones names codes).map
      (fun r => r.phone) = phones := by
  unfold MsgExistingUser.process_and_send
  rw [List.map_map]
  have hz : ∀ q ∈ phones.zip (names.zip codes),
      ((fun r => MsgExistingUser.SendResult.phone r) ∘
        MsgExistingUser.process_one net) q = q.1 := by
    intro q _
    unfold Function.comp MsgExistingUser.process_one
    cases MsgExistingUser.send_whatsapp_msg net q.1 q.2.1 q.2.2 with
    | error e => rfl
    | ok ok => rfl
  rw [List.map_congr_left hz]
  have hlen : (names.zip codes).length = phones.length := by
    rw [List.length_zip, h1, h2, Nat.min_self]
  rw [List.map_fst_zip]
  rw [hlen]

theorem swm_upload_error (net : InvoiceMsg.Network)
    (phone customer invoice_no amount pdf_bytes e : String)
    (h : net.upload (invoice_no ++ ".pdf") pdf_bytes = .error e) :
    InvoiceMsg.send_whatsapp_msg net phone customer invoice_no amount pdf_bytes =
      (.error e, [InvoiceMsg.Call.upload (invoice_no ++ ".pdf") pdf_bytes]) := by
  unfold InvoiceMsg.send_whatsapp_msg
  rw [h]

theorem swm_upload_reject (net : InvoiceMsg.Network)
    (phone customer invoice_no amount pdf_bytes : String) (r : HttpResponse)
    (h : net.upload (invoice_no ++ ".pdf") pdf_bytes = .ok r)
    (hbad : r.status ≠ 200 ∨ pyTruthy r.mediaId = false) :
    InvoiceMsg.send_whatsapp_msg net phone customer invoice_no amount pdf_bytes =
      (.ok false, [InvoiceMsg.Call.upload (invoice_no ++ ".pdf") pdf_bytes]) := by
  unfold InvoiceMsg.send_whatsapp_msg
  rw [h]
  dsimp only
  rcases hbad with h1 | h2
  · rw [if_pos h1]
  · by_cases h1 : r.status ≠ 200
    · rw [if_pos h1]
    · rw [if_neg h1, if_pos h2]

theorem swm_send_result (net : InvoiceMsg.Network)
    (phone customer invoice_no amount pdf_bytes mid : String)
    (r : HttpResponse) (s : HttpResponse)
    (hup : net.upload (invoice_no ++ ".pdf") pdf_bytes = .ok r)
    (h200 : r.status = 200) (hid : r.mediaId = some mid) (hmid : mid ≠ "")
    (hsend : net.send ("91" ++ phone) customer invoice_no amount mid = .ok s) :
    InvoiceMsg.send_whatsapp_msg net phone customer invoice_no amount pdf_bytes =
      (.ok (s.status == 200),
       [InvoiceMsg.Call.upload (invoice_no ++ ".pdf") pdf_bytes,
        InvoiceMsg.Call.send ("91" ++ phone) mid customer invoice_no amount]) := by
  unfold InvoiceMsg.send_whatsapp_msg
  rw [hup]
  dsimp only
  have htruthy : pyTruthy r.mediaId = true := by
    rw [hid]
    simpa [pyTruthy] using hmid
  rw [if_neg (by simp [h200]), if_neg (by simp [htruthy])]
  simp only [hid, Option.getD_some]
  rw [hsend]

theorem swm_send_error (net : InvoiceMsg.Network)
    (phone customer invoice_no amount pdf_bytes mid e : String) (r : HttpResponse)
    (hup : net.upload (invoice_no ++ ".pdf") pdf_bytes = .ok r)
    (h200 : r.status = 200) (hid : r.mediaId = some mid) (hmid : mid ≠ "")
    (hsend : net.send ("91" ++ phone) customer invoice_no amount mid = .error e) :
    InvoiceMsg.send_whatsapp_msg net phone customer invoice_no amount pdf_bytes =
      (.error e,
       [InvoiceMsg.Call.upload (invoice_no ++ ".pdf") pdf_bytes,
        InvoiceMsg.Call.send ("91" ++ phone) mid customer invoice_no amount]) := by
  unfold InvoiceMsg.send_whatsapp_msg
  rw [hup]
  dsimp only
  have htruthy : pyTruthy r.mediaId = true := by
    rw [hid]
    simpa [pyTruthy] using hmid
  rw [if_neg (by simp [h200]), if_neg (by simp [htruthy])]
  simp only [hid, Option.getD_some]
  rw [hsend]

theorem dispatch_one_found (net : InvoiceMsg.Network)
    (mapping : List (String × InvoiceMsg.Info)) (f : InvoiceMsg.FileObj)
    (k : String) (info : InvoiceMsg.Info)
    (hk : InvoiceMsg.extract_invoice_number f.name = some k)
    (hget : dictGet mapping k = some info) :
    InvoiceMsg.dispatch_one net mapping f =
      match f.read with
      | .error e =>
        (⟨f.name, some k, some info.phone, some info.dealer, "error: " ++ e⟩, [])
      | .ok pdf_bytes =>
        match InvoiceMsg.send_whatsapp_msg net info.phone info.dealer k
            info.amount pdf_bytes with
        | (.error e, calls) =>
          (⟨f.name, some k, some info.phone, some info.dealer,
            "error: " ++ e⟩, calls)
        | (.ok ok, calls) =>
          (⟨f.name, some k, some info.phone, some info.dealer,
            if ok then "sent" else "failed"⟩, calls) := by
  unfold InvoiceMsg.dispatch_one
  rw [hk]
  dsimp only
  have hne := (extract_eq_some f.name k hk).2
  have hhk : dictHasKey mapping k = true :=
    (dictHasKey_iff_get mapping k).mpr (by rw [hget]; rfl)
  rw [if_neg hne, if_neg (by simp [hhk])]
  simp only [hget, Option.getD_some]

/-! ## Claim theorems -/

/-- C1 counterexample: the spec's example `derive("noUnderscore.pdf") ==
"noUnderscore"` is false on the code — `split("_")` leaves a filename without
underscores whole, so the derived key is the entire filename
`"noUnderscore.pdf"`, extension included. -/
theorem C1_counterexample :
    InvoiceMsg.extract_invoice_number "noUnderscore.pdf" ≠ some "noUnderscore" ∧
    InvoiceMsg.extract_invoice_number "noUnderscore.pdf" = some "noUnderscore.pdf" := by
  decide

/-- C1 (amended): the filename key-derivation function is pure and idempotent
(`derive(f) = derive(f)` for every `f`), `derive("A1_x.pdf") = "A1"`,
`derive("noUnderscore.pdf") = "noUnderscore.pdf"` (the whole filename, since
there is no underscore to split on), and `derive("") = None`. -/
theorem C1_key_derivation_examples :
    (∀ f : String, InvoiceMsg.extract_invoice_number f =
      InvoiceMsg.extract_invoice_number f) ∧
    InvoiceMsg.extract_invoice_number "A1_x.pdf" = some "A1" ∧
    InvoiceMsg.extract_invoice_number "noUnderscore.pdf" = some "noUnderscore.pdf" ∧
    InvoiceMsg.extract_invoice_number "" = none :=
  ⟨fun _ => rfl, by decide, by decide, by decide⟩

/-- C3 counterexample: the claim "the derived key is None exactly when the
filename contains no `_`" fails at `"noUnderscore.pdf"`: that filename contains
no underscore, yet the derived key is `some "noUnderscore.pdf"`, not `None`. -/
theorem C3_counterexample :
    ("noUnderscore.pdf".toList.contains '_') = false ∧
    InvoiceMsg.extract_invoice_number "noUnderscore.pdf" ≠ none := by
  decide

/-- C3 (amended): for every uploaded filename, the derived correlation key,
when it exists, is the trimmed prefix of the filename before the first `_`
(the whole trimmed filename when no `_` occurs), and the derived key is None
exactly when that trimmed prefix is empty.  The prefix is characterised
extensionally: it is an underscore-free prefix of the filename followed either
by nothing or by a suffix starting with `_`. -/
theorem C3_key_prefix_characterisation :
    ∀ f : String,
      ((firstToken f).toList ++ f.toList.dropWhile (fun c => c ≠ '_') = f.toList) ∧
      (∀ c, c ∈ (firstToken f).toList → c ≠ '_') ∧
      (∀ c, (f.toList.dropWhile (fun c => c ≠ '_')).head? = some c → c = '_') ∧
      (InvoiceMsg.extract_invoice_number f = none ↔ pyStrip (firstToken f) = "") ∧
      (∀ k, InvoiceMsg.extract_invoice_number f = some k →
        k = pyStrip (firstToken f)) := by
  intro f
  refine ⟨?_, ?_, ?_, extract_eq_none_iff f, ?_⟩
  · show (f.toList.takeWhile (fun c => c ≠ '_')) ++ _ = f.toList
    exact List.takeWhile_append_dropWhile _ _
  · intro c hc
    have hc' : c ∈ f.toList.takeWhile (fun c => decide (c ≠ '_')) := hc
    have := List.mem_takeWhile_imp (p := fun c => decide (c ≠ '_')) hc'
    simpa using this
  · intro c hc
    have := List.head?_dropWhile_not (fun c => decide (c ≠ '_')) f.toList
    rw [hc] at this
    simpa using this
  · intro k hk
    exact (extract_eq_some f k hk).1

/-- C10: the key-derivation function returns None not only for the empty
filename but for every filename whose prefix before the first `_` is empty or
whitespace-only (e.g. `"_copy.pdf"`, `"   _x.pdf"`), and the dispatcher
records `skipped` and performs no HTTP call for any file with an underivable
key. -/
theorem C10_whitespace_prefix_skipped :
    (∀ f : String, pyStrip (firstToken f) = "" →
      InvoiceMsg.extract_invoice_number f = none) ∧
    InvoiceMsg.extract_invoice_number "_copy.pdf" = none ∧
    InvoiceMsg.extract_invoice_number "   _x.pdf" = none ∧
    (∀ (net : InvoiceMsg.Network) (mapping : List (String × InvoiceMsg.Info))
        (f : InvoiceMsg.FileObj),
      InvoiceMsg.extract_invoice_number f.name = none →
      InvoiceMsg.dispatch_one net mapping f =
        (⟨f.name, none, none, none, "skipped"⟩, [])) := by
  refine ⟨?_, by decide, by decide, ?_⟩
  · intro f h
    exact (extract_eq_none_iff f).mpr h
  · intro net mapping f h
    unfold InvoiceMsg.dispatch_one
    rw [h]

/-- C4: whenever some correlation key present in the (trimmed, non-empty)
roster is absent from the set of keys derivable from the filenames, the
invoice validator answers `unmatchedInvoices` carrying exactly the set of
missing keys (membership characterised order-independently), and returns no
mapping. -/
theorem C4_unmatched_invoices :
    ∀ (t : InvoiceMsg.Table) (filenames : List String),
      InvoiceMsg.REQUIRED_COLUMNS.all (fun c => t.columns.contains c) = true →
      (t.rows.map InvoiceMsg.trimRow).any InvoiceMsg.rowHasEmpty = false →
      (∃ k, k ∈ InvoiceMsg.excelInvoices (t.rows.map InvoiceMsg.trimRow) ∧
        k ∉ InvoiceMsg.fileInvoices filenames) →
      InvoiceMsg.validate_data t filenames =
        .unmatchedInvoices (InvoiceMsg.excelInvoices (t.rows.map InvoiceMsg.trimRow) \
          InvoiceMsg.fileInvoices filenames) ∧
      (∀ k, k ∈ InvoiceMsg.excelInvoices (t.rows.map InvoiceMsg.trimRow) \
          InvoiceMsg.fileInvoices filenames ↔
        (k ∈ InvoiceMsg.excelInvoices (t.rows.map InvoiceMsg.trimRow) ∧
          k ∉ InvoiceMsg.fileInvoices filenames)) ∧
      (∀ m, InvoiceMsg.validate_data t filenames ≠ .ok m) := by
  intro t filenames hcols hrows hex
  have hne : InvoiceMsg.excelInvoices (t.rows.map InvoiceMsg.trimRow) \
      InvoiceMsg.fileInvoices filenames ≠ ∅ := by
    rcases hex with ⟨k, hk, hnk⟩
    intro hemp
    have hmem : k ∈ InvoiceMsg.excelInvoices (t.rows.map InvoiceMsg.trimRow) \
        InvoiceMsg.fileInvoices filenames := Finset.mem_sdiff.mpr ⟨hk, hnk⟩
    rw [hemp] at hmem
    simp at hmem
  have heq : InvoiceMsg.validate_data t filenames =
      .unmatchedInvoices (InvoiceMsg.excelInvoices (t.rows.map InvoiceMsg.trimRow) \
        InvoiceMsg.fileInvoices filenames) := by
    unfold InvoiceMsg.validate_data
    rw [hcols]
    simp only [Bool.not_true, Bool.false_eq_true, if_false, hrows, if_pos hne]
  refine ⟨heq, fun k => Finset.mem_sdiff, fun m hm => ?_⟩
  rw [heq] at hm
  cases hm

/-- C5: for both the invoice variant and the new-user variant, a spreadsheet
that has all required columns but contains a row with an empty required cell
after trimming is rejected (`incompleteRows`, never `ok`), and the reported
indices are exactly the 0-based positions of the offending rows. -/
theorem C5_incomplete_rows :
    (∀ (t : InvoiceMsg.Table) (filenames : List String),
      InvoiceMsg.REQUIRED_COLUMNS.all (fun c => t.columns.contains c) = true →
      (t.rows.map InvoiceMsg.trimRow).any InvoiceMsg.rowHasEmpty = true →
      InvoiceMsg.validate_data t filenames =
        .incompleteRows (maskIndices InvoiceMsg.rowHasEmpty
          (t.rows.map InvoiceMsg.trimRow)) ∧
      (∀ i, i ∈ maskIndices InvoiceMsg.rowHasEmpty (t.rows.map InvoiceMsg.trimRow) ↔
        ∃ r, (t.rows.map InvoiceMsg.trimRow)[i]? = some r ∧
          InvoiceMsg.rowHasEmpty r = true) ∧
      (∀ m, InvoiceMsg.validate_data t filenames ≠ .ok m)) ∧
    (∀ t : WelcomeNewUser.Table,
      t.columns.contains "phone number" = true →
      (t.phones.map pyStrip).any (fun p => p == "") = true →
      WelcomeNewUser.validate_data t =
        .incompleteRows (maskIndices (fun p => p == "") (t.phones.map pyStrip)) ∧
      (∀ i, i ∈ maskIndices (fun p => p == "") (t.phones.map pyStrip) ↔
        ∃ p, (t.phones.map pyStrip)[i]? = some p ∧ (p == "") = true) ∧
      (∀ ps, WelcomeNewUser.validate_data t ≠ .ok ps)) := by
  constructor
  · intro t filenames hcols hrows
    have heq : InvoiceMsg.validate_data t filenames =
        .incompleteRows (maskIndices InvoiceMsg.rowHasEmpty
          (t.rows.map InvoiceMsg.trimRow)) := by
      unfold InvoiceMsg.validate_data
      rw [hcols]
      simp only [Bool.not_true, Bool.false_eq_true, if_false, hrows, if_true]
    refine ⟨heq, fun i => mem_maskIndices _ _ i, fun m hm => ?_⟩
    rw [heq] at hm
    cases hm
  · intro t hcols hrows
    have heq : WelcomeNewUser.validate_data t =
        .incompleteRows (maskIndices (fun p => p == "") (t.phones.map pyStrip)) := by
      unfold WelcomeNewUser.validate_data
      rw [hcols]
      simp only [Bool.not_true, Bool.false_eq_true, if_false, hrows, if_true]
    refine ⟨heq, fun i => mem_maskIndices _ _ i, fun ps hps => ?_⟩
    rw [heq] at hps
    cases hps

/-- C9: when the invoice validator succeeds, the returned mapping has exactly
one entry per distinct correlation key of the (trimmed) table — its key list
has no duplicates and holds precisely the keys occurring in the table — and
the entry stored under a key carries the phone/dealer/amount attributes of the
LAST table row with that key (last-write-wins). -/
theorem C9_mapping_last_write_wins :
    ∀ (t : InvoiceMsg.Table) (filenames : List String)
      (m : List (String × InvoiceMsg.Info)),
      InvoiceMsg.validate_data t filenames = .ok m →
      (dictKeys m).Nodup ∧
      (∀ k, dictHasKey m k = true ↔
        k ∈ (t.rows.map InvoiceMsg.trimRow).map (fun r => r.invoice)) ∧
      (∀ k, dictGet m k =
        (((t.rows.map InvoiceMsg.trimRow).filter
          (fun r => r.invoice == k)).getLast?).map InvoiceMsg.rowInfo) := by
  intro t filenames m hok
  have hm : m = InvoiceMsg.buildMapping (t.rows.map InvoiceMsg.trimRow) := by
    unfold InvoiceMsg.validate_data at hok
    by_cases h1 : (!InvoiceMsg.REQUIRED_COLUMNS.all
        (fun c => t.columns.contains c)) = true
    · rw [if_pos h1] at hok
      cases hok
    · rw [if_neg h1] at hok
      simp only at hok
      by_cases h2 : (t.rows.map InvoiceMsg.trimRow).any InvoiceMsg.rowHasEmpty = true
      · rw [if_pos h2] at hok
        cases hok
      · rw [if_neg h2] at hok
        by_cases h3 : InvoiceMsg.excelInvoices (t.rows.map InvoiceMsg.trimRow) \
            InvoiceMsg.fileInvoices filenames ≠ ∅
        · rw [if_pos h3] at hok
          cases hok
        · rw [if_neg h3] at hok
          injection hok with h
          exact h.symm
  subst hm
  exact ⟨buildMapping_keys_nodup _,
    fun k => dictHasKey_buildMapping _ k,
    fun k => dictGet_buildMapping _ k⟩

/-- C2: the new-user variant de-duplicates phone numbers before dispatch —
the validated list is duplicate-free (each distinct trimmed phone of the sheet
appears exactly once, so there is at most one message attempt per distinct
number) — while the existing-user variant performs exactly one message attempt
per spreadsheet row, repeated phone numbers included. -/
theorem C2_dedup_asymmetry :
    (∀ (t : WelcomeNewUser.Table) (phones : List String),
      WelcomeNewUser.validate_data t = .ok phones →
      phones.Nodup ∧
      (∀ p, p ∈ phones ↔ p ∈ t.phones.map pyStrip) ∧
      (∀ net : WelcomeNewUser.Network,
        (WelcomeNewUser.process_and_send net phones).map (fun r => r.phone) =
          phones ∧
        ∀ p, ((WelcomeNewUser.process_and_send net phones).map
          (fun r => r.phone)).count p ≤ 1)) ∧
    (∀ (t : MsgExistingUser.Table) (phones names codes : List String),
      MsgExistingUser.validate_data t = .ok phones names codes →
      (∀ net : MsgExistingUser.Network,
        (MsgExistingUser.process_and_send net phones names codes).map
          (fun r => r.phone) = phones ∧
        (MsgExistingUser.process_and_send net phones names codes).length =
          t.rows.length)) := by
  constructor
  · intro t phones hok
    have hp : phones = WelcomeNewUser.pdUnique (t.phones.map pyStrip) := by
      unfold WelcomeNewUser.validate_data at hok
      by_cases h1 : (!t.columns.contains "phone number") = true
      · rw [if_pos h1] at hok
        cases hok
      · rw [if_neg h1] at hok
        by_cases h2 : (t.phones.map pyStrip).any (fun p => p == "") = true
        · rw [if_pos h2] at hok
          cases hok
        · rw [if_neg h2] at hok
          injection hok with h
          exact h.symm
    subst hp
    refine ⟨pdUnique_nodup _, fun p => mem_pdUnique _ p, fun net => ?_⟩
    refine ⟨welcome_results_phones net _, fun p => ?_⟩
    rw [welcome_results_phones net _]
    exact List.nodup_iff_count_le_one.mp (pdUnique_nodup _) p
  · intro t phones names codes hok
    have hinv : phones = (t.rows.map MsgExistingUser.trimRow).map (fun r => r.phone) ∧
        names = (t.rows.map MsgExistingUser.trimRow).map (fun r => r.dealerName) ∧
        codes = (t.rows.map MsgExistingUser.trimRow).map (fun r => r.dealerCode) := by
      unfold MsgExistingUser.validate_data at hok
      by_cases h1 : (!MsgExistingUser.REQUIRED_COLUMNS.all
          (fun c => t.columns.contains c)) = true
      · rw [if_pos h1] at hok
        cases hok
      · rw [if_neg h1] at hok
        by_cases h2 : (t.rows.map MsgExistingUser.trimRow).any
            MsgExistingUser.rowHasEmpty = true
        · rw [if_pos h2] at hok
          cases hok
        · rw [if_neg h2] at hok
          injection hok with hph hnm hcd
          exact ⟨hph.symm, hnm.symm, hcd.symm⟩
    rcases hinv with ⟨hph, hnm, hcd⟩
    have hlen1 : names.length = phones.length := by
      rw [hph, hnm]
      simp
    have hlen2 : codes.length = phones.length := by
      rw [hph, hcd]
      simp
    intro net
    refine ⟨existing_results_phones net phones names codes hlen1 hlen2, ?_⟩
    have hmap := existing_results_phones net phones names codes hlen1 hlen2
    have hlen : (MsgExistingUser.process_and_send net phones names codes).length =
        phones.length := by
      calc (MsgExistingUser.process_and_send net phones names codes).length
          = ((MsgExistingUser.process_and_send net phones names codes).map
              (fun r => r.phone)).length := (List.length_map _ _).symm
        _ = phones.length := by rw [hmap]
    rw [hlen, hph]
    simp

/-- C6: a document whose derived correlation key is None, or whose key is
absent from the mapping, is recorded as `skipped` with an empty HTTP-call
trace, and the dispatch loop goes on: the result list is the per-file map of
the single-item dispatcher and the call trace is the in-order concatenation of
the per-item traces, so a skipped item contributes no call and blocks no later
item. -/
theorem C6_unmatched_documents_skipped :
    (∀ (net : InvoiceMsg.Network) (mapping : List (String × InvoiceMsg.Info))
        (f : InvoiceMsg.FileObj),
      (InvoiceMsg.extract_invoice_number f.name = none ∨
        ∃ k, InvoiceMsg.extract_invoice_number f.name = some k ∧
          dictGet mapping k = none) →
      InvoiceMsg.dispatch_one net mapping f =
        (⟨f.name, InvoiceMsg.extract_invoice_number f.name, none, none,
          "skipped"⟩, [])) ∧
    (∀ (net : InvoiceMsg.Network) (mapping : List (String × InvoiceMsg.Info))
        (files : List InvoiceMsg.FileObj),
      (InvoiceMsg.process_and_send net mapping files).1 =
        files.map (fun f => (InvoiceMsg.dispatch_one net mapping f).1) ∧
      (InvoiceMsg.process_and_send net mapping files).2 =
        (files.map (fun f => (InvoiceMsg.dispatch_one net mapping f).2)).flatten) := by
  constructor
  · intro net mapping f h
    rcases h with h | ⟨k, hk, hget⟩
    · unfold InvoiceMsg.dispatch_one
      rw [h]
    · unfold InvoiceMsg.dispatch_one
      rw [hk]
      dsimp only
      have hne := (extract_eq_some f.name k hk).2
      have hhk : dictHasKey mapping k = false := by
        cases hcase : dictHasKey mapping k with
        | false => rfl
        | true =>
          have := (dictHasKey_iff_get mapping k).mp hcase
          rw [hget] at this
          cases this
      rw [if_neg hne, if_pos hhk]
  · intro net mapping files
    exact ⟨rfl, rfl⟩

/-- C7: for an item whose key is matched (and whose bytes are readable), a
media-upload response with a non-200 status or without a usable media id makes
the item `failed`, and the only HTTP call performed is the upload — the
message-send endpoint is never contacted for that item. -/
theorem C7_upload_failure_stops_item :
    ∀ (net : InvoiceMsg.Network) (mapping : List (String × InvoiceMsg.Info))
      (f : InvoiceMsg.FileObj) (k : String) (info : InvoiceMsg.Info)
      (bytes : String) (r : HttpResponse),
      InvoiceMsg.extract_invoice_number f.name = some k →
      dictGet mapping k = some info →
      f.read = .ok bytes →
      net.upload (k ++ ".pdf") bytes = .ok r →
      (r.status ≠ 200 ∨ pyTruthy r.mediaId = false) →
      InvoiceMsg.dispatch_one net mapping f =
        (⟨f.name, some k, some info.phone, some info.dealer, "failed"⟩,
         [InvoiceMsg.Call.upload (k ++ ".pdf") bytes]) := by
  intro net mapping f k info bytes r hk hget hread hup hbad
  rw [dispatch_one_found net mapping f k info hk hget, hread]
  dsimp only
  rw [swm_upload_reject net info.phone info.dealer k info.amount bytes r hup hbad]
  rfl

/-- C8: on the success path (key matched, bytes read, upload accepted with a
usable media id) the recorded status is `sent` iff the message-send response
status is 200 and `failed` for any other status; an exception raised at any
stage of the attempt (reading the file, the upload call, the send call) is
caught and recorded as `error: <message>`; every recorded status is one of
`skipped`/`sent`/`failed`/`error: ...` (nothing propagates), and the result
list is the per-file map of the single-item dispatcher, so processing always
continues with subsequent items. -/
theorem C8_sent_iff_200_errors_caught :
    (∀ (net : InvoiceMsg.Network) (mapping : List (String × InvoiceMsg.Info))
        (f : InvoiceMsg.FileObj) (k : String) (info : InvoiceMsg.Info)
        (bytes mid : String) (r s : HttpResponse),
      InvoiceMsg.extract_invoice_number f.name = some k →
      dictGet mapping k = some info →
      f.read = .ok bytes →
      net.upload (k ++ ".pdf") bytes = .ok r →
      r.status = 200 → r.mediaId = some mid → mid ≠ "" →
      net.send ("91" ++ info.phone) info.dealer k info.amount mid = .ok s →
      (((InvoiceMsg.dispatch_one net mapping f).1.status = "sent" ↔
        s.status = 200) ∧
       (s.status ≠ 200 →
        (InvoiceMsg.dispatch_one net mapping f).1.status = "failed"))) ∧
    (∀ (net : InvoiceMsg.Network) (mapping : List (String × InvoiceMsg.Info))
        (f : InvoiceMsg.FileObj) (k : String) (info : InvoiceMsg.Info)
        (bytes mid e : String) (r : HttpResponse),
      InvoiceMsg.extract_invoice_number f.name = some k →
      dictGet mapping k = some info →
      f.read = .ok bytes →
      net.upload (k ++ ".pdf") bytes = .ok r →
      r.status = 200 → r.mediaId = some mid → mid ≠ "" →
      net.send ("91" ++ info.phone) info.dealer k info.amount mid = .error e →
      (InvoiceMsg.dispatch_one net mapping f).1.status = "error: " ++ e) ∧
    (∀ (net : InvoiceMsg.Network) (mapping : List (String × InvoiceMsg.Info))
        (f : InvoiceMsg.FileObj) (k : String) (info : InvoiceMsg.Info)
        (bytes e : String),
      InvoiceMsg.extract_invoice_number f.name = some k →
      dictGet mapping k = some info →
      f.read = .ok bytes →
      net.upload (k ++ ".pdf") bytes = .error e →
      (InvoiceMsg.dispatch_one net mapping f).1.status = "error: " ++ e) ∧
    (∀ (net : InvoiceMsg.Network) (mapping : List (String × InvoiceMsg.Info))
        (f : InvoiceMsg.FileObj) (k : String) (info : InvoiceMsg.Info)
        (e : String),
      InvoiceMsg.extract_invoice_number f.name = some k →
      dictGet mapping k = some info →
      f.read = .error e →
      (InvoiceMsg.dispatch_one net mapping f).1.status = "error: " ++ e) ∧
    (∀ (net : InvoiceMsg.Network) (mapping : List (String × InvoiceMsg.Info))
        (f : InvoiceMsg.FileObj),
      (InvoiceMsg.dispatch_one net mapping f).1.status = "skipped" ∨
      (InvoiceMsg.dispatch_one net mapping f).1.status = "sent" ∨
      (InvoiceMsg.dispatch_one net mapping f).1.status = "failed" ∨
      ∃ e, (InvoiceMsg.dispatch_one net mapping f).1.status = "error: " ++ e) ∧
    (∀ (net : InvoiceMsg.Network) (mapping : List (String × InvoiceMsg.Info))
        (files : List InvoiceMsg.FileObj),
      (InvoiceMsg.process_and_send net mapping files).1 =
        files.map (fun f => (InvoiceMsg.dispatch_one net mapping f).1)) := by
  refine ⟨?_, ?_, ?_, ?_, ?_, fun net mapping files => rfl⟩
  · intro net mapping f k info bytes mid r s hk hget hread hup h200 hid hmid hsend
    rw [dispatch_one_found net mapping f k info hk hget, hread]
    dsimp only
    rw [swm_send_result net info.phone info.dealer k info.amount bytes mid r s
      hup h200 hid hmid hsend]
    dsimp only
    constructor
    · by_cases hs : s.status = 200
      · rw [if_pos (by simpa using hs)]
        simp [hs]
      · rw [if_neg (by simpa using hs)]
        constructor
        · intro hx
          exact absurd hx (by decide)
        · intro hx
          exact absurd hx hs
    · intro hs
      rw [if_neg (by simpa using hs)]
  · intro net mapping f k info bytes mid e r hk hget hread hup h200 hid hmid hsend
    rw [dispatch_one_found net mapping f k info hk hget, hread]
    dsimp only
    rw [swm_send_error net info.phone info.dealer k info.amount bytes mid e r
      hup h200 hid hmid hsend]
  · intro net mapping f k info bytes e hk hget hread hup
    rw [dispatch_one_found net mapping f k info hk hget, hread]
    dsimp only
    rw [swm_upload_error net info.phone info.dealer k info.amount bytes e hup]
  · intro net mapping f k info e hk hget hread
    rw [dispatch_one_found net mapping f k info hk hget, hread]
  · intro net mapping f
    cases hk : InvoiceMsg.extract_invoice_number f.name with
    | none =>
      unfold InvoiceMsg.dispatch_one
      rw [hk]
      exact Or.inl rfl
    | some k =>
      by_cases hkE : k = ""
      · unfold InvoiceMsg.dispatch_one
        rw [hk]
        dsimp only
        rw [if_pos hkE]
        exact Or.inl rfl
      · by_cases hhk : dictHasKey mapping k = false
        · unfold InvoiceMsg.dispatch_one
          rw [hk]
          dsimp only
          rw [if_neg hkE, if_pos hhk]
          exact Or.inl rfl
        · have hsome : (dictGet mapping k).isSome := by
            cases hcase : dictHasKey mapping k with
            | false => exact absurd hcase hhk
            | true => exact (dictHasKey_iff_get mapping k).mp hcase
          obtain ⟨info, hget⟩ := Option.isSome_iff_exists.mp hsome
          rw [dispatch_one_found net mapping f k info hk hget]
          cases hread : f.read with
          | error e =>
            dsimp only
            exact Or.inr (Or.inr (Or.inr ⟨e, rfl⟩))
          | ok bytes =>
            dsimp only
            rcases hswm : InvoiceMsg.send_whatsapp_msg net info.phone
              info.dealer k info.amount bytes with ⟨res, calls⟩
            cases res with
            | error e =>
              dsimp only
              exact Or.inr (Or.inr (Or.inr ⟨e, rfl⟩))
            | ok b =>
              dsimp only
              cases b
              · exact Or.inr (Or.inr (Or.inl rfl))
              · exact Or.inr (Or.inl rfl)

/-- Witness for C2 at a sheet with a duplicated phone: the new-user pipeline
dispatches each distinct phone once; the existing-user pipeline dispatches one
message per row. -/
theorem C2_witness :
    (WelcomeNewUser.process_and_send ⟨fun _ => .ok ⟨200, none⟩⟩
      ["111", "222"]).map (fun r => r.phone) = ["111", "222"] ∧
    (MsgExistingUser.process_and_send ⟨fun _ _ _ => .ok ⟨200, none⟩⟩
      ["111", "111"] ["A", "B"] ["C1", "C2"]).length = 2 := by
  have h1 := C2_dedup_asymmetry.1 ⟨["phone number"], ["  111 ", "111", "222"]⟩
    ["111", "222"] (by decide)
  have h2 := C2_dedup_asymmetry.2
    ⟨["phone number", "dealer name", "dealer code"],
     [⟨"111", "A", "C1"⟩, ⟨"111", "B", "C2"⟩]⟩
    ["111", "111"] ["A", "B"] ["C1", "C2"] (by decide)
  exact ⟨(h1.2.2 ⟨fun _ => .ok ⟨200, none⟩⟩).1,
    (h2 ⟨fun _ _ _ => .ok ⟨200, none⟩⟩).2⟩

/-- Witness for C3 at `"A1_x.pdf"`: the derived key is the trimmed prefix
before the first underscore. -/
theorem C3_witness :
    ("A1" : String) = pyStrip (firstToken "A1_x.pdf") :=
  (C3_key_prefix_characterisation "A1_x.pdf").2.2.2.2 "A1" (by decide)

/-- Witness for C4 at a two-row roster with only one matching file: the
validator reports the missing key set. -/
theorem C4_witness :
    InvoiceMsg.validate_data
      ⟨["invoice number", "phone number", "dealer name", "amount"],
       [⟨"A1", "9", "D", "5"⟩, ⟨"B2", "8", "E", "6"⟩]⟩ ["A1_x.pdf"] =
      .unmatchedInvoices
        (InvoiceMsg.excelInvoices
          (([⟨"A1", "9", "D", "5"⟩, ⟨"B2", "8", "E", "6"⟩] :
            List InvoiceMsg.Row).map InvoiceMsg.trimRow) \
         InvoiceMsg.fileInvoices ["A1_x.pdf"]) :=
  (C4_unmatched_invoices
    ⟨["invoice number", "phone number", "dealer name", "amount"],
     [⟨"A1", "9", "D", "5"⟩, ⟨"B2", "8", "E", "6"⟩]⟩ ["A1_x.pdf"]
    (by decide) (by decide) ⟨"B2", by decide, by decide⟩).1

/-- Witness for C5 at a sheet whose second row has an empty amount (invoice
variant) and a sheet whose first phone cell is whitespace (new-user variant). -/
theorem C5_witness :
    InvoiceMsg.validate_data
      ⟨["invoice number", "phone number", "dealer name", "amount"],
       [⟨"A1", "9", "D", "5"⟩, ⟨"B2", "8", "E", "  "⟩]⟩ [] =
      .incompleteRows (maskIndices InvoiceMsg.rowHasEmpty
        (([⟨"A1", "9", "D", "5"⟩, ⟨"B2", "8", "E", "  "⟩] :
          List InvoiceMsg.Row).map InvoiceMsg.trimRow)) ∧
    WelcomeNewUser.validate_data ⟨["phone number"], ["  ", "111"]⟩ =
      .incompleteRows (maskIndices (fun p => p == "")
        ((["  ", "111"] : List String).map pyStrip)) :=
  ⟨(C5_incomplete_rows.1
      ⟨["invoice number", "phone number", "dealer name", "amount"],
       [⟨"A1", "9", "D", "5"⟩, ⟨"B2", "8", "E", "  "⟩]⟩ []
      (by decide) (by decide)).1,
   (C5_incomplete_rows.2 ⟨["phone number"], ["  ", "111"]⟩
      (by decide) (by decide)).1⟩

/-- Witness for C6 at a file whose key `"ZZ"` has no mapping entry: the item
is skipped with no HTTP call. -/
theorem C6_witness :
    InvoiceMsg.dispatch_one
      ⟨fun _ _ => .ok ⟨200, some "M1"⟩, fun _ _ _ _ _ => .ok ⟨200, none⟩⟩
      [] ⟨"ZZ_x.pdf", .ok "bytes"⟩ =
      (⟨"ZZ_x.pdf", some "ZZ", none, none, "skipped"⟩, []) := by
  have h := C6_unmatched_documents_skipped.1
    ⟨fun _ _ => .ok ⟨200, some "M1"⟩, fun _ _ _ _ _ => .ok ⟨200, none⟩⟩
    [] ⟨"ZZ_x.pdf", .ok "bytes"⟩ (Or.inr ⟨"ZZ", by decide, rfl⟩)
  rw [show InvoiceMsg.extract_invoice_number "ZZ_x.pdf" = some "ZZ"
    from by decide] at h
  exact h

/-- Witness for C7 at an upload oracle answering 500: the item fails and only
the upload call appears in the trace. -/
theorem C7_witness :
    InvoiceMsg.dispatch_one
      ⟨fun _ _ => .ok ⟨500, none⟩, fun _ _ _ _ _ => .ok ⟨200, none⟩⟩
      [("A1", ⟨"9", "D", "5"⟩)] ⟨"A1_x.pdf", .ok "bytes"⟩ =
      (⟨"A1_x.pdf", some "A1", some "9", some "D", "failed"⟩,
       [InvoiceMsg.Call.upload ("A1" ++ ".pdf") "bytes"]) :=
  C7_upload_failure_stops_item
    ⟨fun _ _ => .ok ⟨500, none⟩, fun _ _ _ _ _ => .ok ⟨200, none⟩⟩
    [("A1", ⟨"9", "D", "5"⟩)] ⟨"A1_x.pdf", .ok "bytes"⟩ "A1" ⟨"9", "D", "5"⟩
    "bytes" ⟨500, none⟩ (by decide) rfl rfl rfl (Or.inl (by decide))

/-- Witness for C8 at oracles answering 200 to both endpoints: the item is
recorded `sent`. -/
theorem C8_witness :
    (InvoiceMsg.dispatch_one
      ⟨fun _ _ => .ok ⟨200, some "M1"⟩, fun _ _ _ _ _ => .ok ⟨200, none⟩⟩
      [("A1", ⟨"9", "D", "5"⟩)] ⟨"A1_x.pdf", .ok "bytes"⟩).1.status = "sent" :=
  ((C8_sent_iff_200_errors_caught.1
    ⟨fun _ _ => .ok ⟨200, some "M1"⟩, fun _ _ _ _ _ => .ok ⟨200, none⟩⟩
    [("A1", ⟨"9", "D", "5"⟩)] ⟨"A1_x.pdf", .ok "bytes"⟩ "A1" ⟨"9", "D", "5"⟩
    "bytes" "M1" ⟨200, some "M1"⟩ ⟨200, none⟩
    (by decide) rfl rfl rfl rfl rfl (by decide) rfl).1).mpr rfl

/-- Witness for C9 at a roster with a duplicated invoice key: the mapping
stores the attributes of the last row with that key. -/
theorem C9_witness :
    dictGet (InvoiceMsg.buildMapping
      (([⟨"A1", "9", "D", "5"⟩, ⟨"A1", "8", "E", "6"⟩] :
        List InvoiceMsg.Row).map InvoiceMsg.trimRow)) "A1" =
      some ⟨"8", "E", "6"⟩ := by
  have h := (C9_mapping_last_write_wins
    ⟨["invoice number", "phone number", "dealer name", "amount"],
     [⟨"A1", "9", "D", "5"⟩, ⟨"A1", "8", "E", "6"⟩]⟩ ["A1_x.pdf"]
    (InvoiceMsg.buildMapping
      (([⟨"A1", "9", "D", "5"⟩, ⟨"A1", "8", "E", "6"⟩] :
        List InvoiceMsg.Row).map InvoiceMsg.trimRow)) rfl).2.2 "A1"
  exact h.trans (by decide)

/-- Witness for C10 at `"_copy.pdf"`: the empty prefix yields no key and the
dispatcher skips the document without any HTTP call. -/
theorem C10_witness :
    InvoiceMsg.dispatch_one
      ⟨fun _ _ => .ok ⟨200, some "M1"⟩, fun _ _ _ _ _ => .ok ⟨200, none⟩⟩
      [] ⟨"_copy.pdf", .ok "bytes"⟩ =
      (⟨"_copy.pdf", none, none, none, "skipped"⟩, []) :=
  C10_whitespace_prefix_skipped.2.2.2
    ⟨fun _ _ => .ok ⟨200, some "M1"⟩, fun _ _ _ _ _ => .ok ⟨200, none⟩⟩
    [] ⟨"_copy.pdf", .ok "bytes"⟩ (by decide)

end WhatsappApp


